import Mathlib

/-!
Shallow embedding of the Negotiation Context & Template Selection Engine
(`neogiator_bot.py`): the stateful model of an ongoing negotiation, the
leverage-point derivation, and the deterministic template scoring/selection
algorithm, together with theorems settling the specification claims.

Modelling conventions:
* Python `float` effectiveness scores are modelled as exact rationals `ℚ`;
  every claim is order-theoretic, none depends on IEEE rounding.
* Python dicts with a fixed field vocabulary (`user_profile`, offers) are
  modelled as structures with `Option` fields; `dict.get(k, d)` becomes
  `Option.getD`.  Python truthiness of a list/offer value is modelled
  explicitly where the source tests it.
* `time.time()` and `datetime.now()` are modelled by an explicit clock
  argument `now : Nat` (the integer second) threaded into each call.
* The two external OpenAI calls are modelled as oracle arguments of type
  `Except String _`: the caller of the embedded function supplies the
  outcome of the external call (success with a parsed value, or any error,
  including a non-parseable response).
* Python `list.sort(key=fun x => x[1], reverse=True)` is a stable sort by
  descending second component.  A stable sort is uniquely determined by its
  comparator, so it is embedded as `List.insertionSort` with the reflexive
  total order `fun a b => b.2 ≤ a.2` (descending score, ties keeping
  first-inserted order), which is structurally recursive and hence
  executable by `decide`/`rfl`.
* Exceptions become `Except BotError _`; state mutation that happened
  before a raise persists, so the orchestrator returns the updated store
  alongside the `Except` result exactly as the in-place Python mutation
  does.
-/

namespace Neogiator

/-- The `NegotiationStrategy` enum of the source. -/
inductive NegotiationStrategy
  | professionalPassiveAggressive
  | confidentAssertive
  | collaborativeProblemSolver
  | strategicQuestioner
  deriving DecidableEq, Repr

/-- The `.value` strings of `NegotiationStrategy`. -/
def strategyValue : NegotiationStrategy → String
  | .professionalPassiveAggressive => "professional_passive_aggressive"
  | .confidentAssertive => "confident_assertive"
  | .collaborativeProblemSolver => "collaborative_problem_solver"
  | .strategicQuestioner => "strategic_questioner"

/-- The `ResponseTone` enum of the source. -/
inductive ResponseTone
  | politeButFirm
  | professionallyDisappointed
  | strategicallyCurious
  | confidentlyAssertive
  deriving DecidableEq, Repr

/-- The `user_profile` dict.  Each field the source ever reads is an
`Option` (absent key = `none`); `leadership_experience` and the profile\x27s
own `current_offer` entry are only ever tested for truthiness, so they are
modelled by the truth value the source observes. -/
structure UserProfile where
  years_experience : Option Int := none
  education_level : Option String := none
  certifications : Option (List String) := none
  leadership_experience : Option Bool := none
  industry_awards : Option (List String) := none
  profile_current_offer : Bool := false
  industry : Option String := none
  key_achievement : Option String := none
  primary_skill : Option String := none
  deriving DecidableEq, Repr

/-- An offer dict (`salary`, `benefits`, `start_date`, `remote`). -/
structure Offer where
  salary : Option Int := none
  benefits : List String := []
  start_date : Option String := none
  remote : Option Bool := none
  deriving DecidableEq, Repr

/-- One entry of `negotiation_history`: the source appends dicts whose
`type` key is `"offer_received"` or `"response_sent"`. -/
inductive HistoryRecord
  | offerReceived (timestamp : Nat) (details : Offer)
  | responseSent (timestamp : Nat) (template_used : String) (response : String)
  deriving DecidableEq, Repr

/-- The `type` field of a history record dict. -/
def recType : HistoryRecord → String
  | .offerReceived _ _ => "offer_received"
  | .responseSent _ _ _ => "response_sent"

/-- The `NegotiationContext` dataclass. -/
structure NegotiationContext where
  company_name : String
  position : String
  current_offer : Option Offer
  user_profile : UserProfile
  negotiation_history : List HistoryRecord
  strategy : NegotiationStrategy
  target_salary : Option Int
  target_benefits : List String
  deal_breakers : List String
  leverage_points : List String
  deriving DecidableEq, Repr

/-- A piece of a Python format string: a literal segment or a named
placeholder (in the source, text between a `\x7b` and a `\x7d`). -/
inductive TemplateChunk
  | lit (s : String)
  | var (name : String)
  deriving DecidableEq, Repr

/-- The placeholder names referenced by a format string. -/
def textVars : List TemplateChunk → List String
  | [] => []
  | .lit _ :: rest => textVars rest
  | .var name :: rest => name :: textVars rest

/-- The `ResponseTemplate` dataclass.  `template_text` is the format
string, kept as its exact alternation of literal segments and
placeholders.  The source field `variables` is renamed
`template_variables` because `variables` is a reserved word in Lean. -/
structure ResponseTemplate where
  template_id : String
  strategy : NegotiationStrategy
  tone : ResponseTone
  template_text : List TemplateChunk
  template_variables : List String
  effectiveness_score : ℚ
  deriving DecidableEq, Repr

/-- The static catalog built by `_load_response_templates`. -/
def loadResponseTemplates : List ResponseTemplate :=
  [ { template_id := "salary_undervalued",
      strategy := .professionalPassiveAggressive,
      tone := .professionallyDisappointed,
      template_text :=
        [ .lit "Thank you for your offer. While I appreciate the opportunity, I must express some concern about the compensation package. Given my ",
          .var "experience_years",
          .lit " years of experience in ",
          .var "industry",
          .lit " and my track record of ",
          .var "achievement",
          .lit ", I had hoped for a more competitive offer that reflects market standards. \n\nI\x27m curious about your compensation philosophy - do you typically benchmark against industry standards? I\x27d be interested to understand how you arrived at this figure, as it seems significantly below what I\x27ve seen for similar roles at comparable companies." ],
      template_variables := ["experience_years", "industry", "achievement"],
      effectiveness_score := 0.85 },
    { template_id := "benefits_inadequate",
      strategy := .professionalPassiveAggressive,
      tone := .strategicallyCurious,
      template_text :=
        [ .lit "I notice the benefits package is quite different from what I\x27ve seen at other companies in this space. Specifically, the ",
          .var "benefit_type",
          .lit " seems limited compared to industry standards. \n\nCould you help me understand your benefits philosophy? I\x27m particularly interested in how you view employee retention and work-life balance, as these factors significantly impact my decision-making process." ],
      template_variables := ["benefit_type"],
      effectiveness_score := 0.80 },
    { template_id := "timeline_pressure",
      strategy := .professionalPassiveAggressive,
      tone := .politeButFirm,
      template_text :=
        [ .lit "I understand you\x27d like a quick decision, but I\x27m currently evaluating multiple opportunities and want to ensure I make the right choice for my career. Rushing this decision wouldn\x27t be fair to either of us.\n\nGiven the importance of this role and the long-term commitment involved, I believe taking the time to properly evaluate all aspects of the offer is in everyone\x27s best interest. What\x27s your typical timeline for candidates in similar situations?" ],
      template_variables := [],
      effectiveness_score := 0.90 },
    { template_id := "market_value_assertion",
      strategy := .confidentAssertive,
      tone := .confidentlyAssertive,
      template_text :=
        [ .lit "Based on my research and conversations with industry peers, my market value for this role is significantly higher than what\x27s being offered. My expertise in ",
          .var "skill_area",
          .lit " and proven track record of ",
          .var "specific_achievement",
          .lit " command premium compensation.\n\nI\x27m confident I can deliver exceptional value to ",
          .var "company_name",
          .lit ", but I need to ensure the compensation reflects that value proposition. Let\x27s discuss how we can align the offer with market standards." ],
      template_variables := ["skill_area", "specific_achievement", "company_name"],
      effectiveness_score := 0.88 },
    { template_id := "growth_opportunities",
      strategy := .strategicQuestioner,
      tone := .strategicallyCurious,
      template_text :=
        [ .lit "I\x27m excited about the role, but I\x27d like to understand more about growth opportunities. Specifically:\n\n1. How do you typically handle salary reviews and promotions?\n2. What\x27s the average tenure of employees in similar roles?\n3. How do you measure and reward exceptional performance?\n\nThese factors are crucial for my long-term career planning and will significantly influence my decision." ],
      template_variables := [],
      effectiveness_score := 0.82 },
    { template_id := "creative_solution",
      strategy := .collaborativeProblemSolver,
      tone := .politeButFirm,
      template_text :=
        [ .lit "I understand budget constraints, but I\x27m confident we can find a creative solution that works for both parties. Here are some alternatives I\x27d be open to discussing:\n\n- Performance-based bonuses tied to specific metrics\n- Additional equity/stock options\n- Professional development budget\n- Flexible work arrangements\n- Earlier salary review timeline\n\nWhat combination of these would make sense for your organization?" ],
      template_variables := [],
      effectiveness_score := 0.87 } ]

/-- Truthiness of an optional list-valued dict entry: present and
non-empty. -/
def truthyList (l : Option (List String)) : Bool :=
  match l with
  | some l => !l.isEmpty
  | none => false

/-- The `_identify_leverage_points` rule table, in source order. -/
def identifyLeveragePoints (p : UserProfile) : List String :=
  (if p.years_experience.getD 0 > 5 then ["senior_experience"] else []) ++
  (if p.education_level = some "Masters" ∨ p.education_level = some "PhD" then
    ["advanced_education"] else []) ++
  (if truthyList p.certifications then ["specialized_certifications"] else []) ++
  (if p.leadership_experience = some true then ["leadership_skills"] else []) ++
  (if truthyList p.industry_awards then ["industry_recognition"] else []) ++
  (if p.profile_current_offer then ["competing_offer"] else [])

/-- The identifier built by `create_negotiation_context`:
`f"\x7bcompany_name\x7d_\x7bposition\x7d_\x7bint(time.time())\x7d"`. -/
def contextId (company_name position : String) (now : Nat) : String :=
  company_name ++ "_" ++ position ++ "_" ++ Nat.repr now

/-- Lookup in an insertion-ordered dict modelled as an association list. -/
def dictGet? (k : String) : List (String × α) → Option α
  | [] => none
  | (k₂, v) :: rest => if k₂ = k then some v else dictGet? k rest

/-- Python dict assignment `d[k] = v`: update in place if the key exists,
otherwise append in insertion order. -/
def dictInsert (k : String) (v : α) : List (String × α) → List (String × α)
  | [] => [(k, v)]
  | (k₂, w) :: rest =>
    if k₂ = k then (k, v) :: rest else (k₂, w) :: dictInsert k v rest

/-- The mutable state of a `NeogiatorBot` instance: the template catalog
and the `negotiation_contexts` dict. -/
structure BotState where
  response_templates : List ResponseTemplate
  negotiation_contexts : List (String × NegotiationContext)
  deriving DecidableEq, Repr

/-- A freshly constructed bot (after `__init__` with a valid key). -/
def initialBot : BotState :=
  { response_templates := loadResponseTemplates, negotiation_contexts := [] }

/-- Store update: `self.negotiation_contexts[context_id] = context`. -/
def insertContext (bot : BotState) (context_id : String)
    (context : NegotiationContext) : BotState :=
  { bot with negotiation_contexts :=
      dictInsert context_id context bot.negotiation_contexts }

/-- The `create_negotiation_context` method.  `target_benefits` and
`deal_breakers` default to `None` in the source and are normalised to `[]`
by `or []`. -/
def createNegotiationContext (bot : BotState) (now : Nat)
    (company_name position : String) (user_profile : UserProfile)
    (target_salary : Option Int) (target_benefits : Option (List String))
    (deal_breakers : Option (List String)) : String × BotState :=
  let cid := contextId company_name position now
  let context : NegotiationContext :=
    { company_name := company_name,
      position := position,
      current_offer := none,
      user_profile := user_profile,
      negotiation_history := [],
      strategy := .professionalPassiveAggressive,
      target_salary := target_salary,
      target_benefits := target_benefits.getD [],
      deal_breakers := deal_breakers.getD [],
      leverage_points := identifyLeveragePoints user_profile }
  (cid, insertContext bot cid context)

/-- The parsed result of the external tactic-analysis call (a JSON dict
with at least `tactic`, `pressure_points`, `response_strategy`). -/
structure TacticAnalysis where
  tactic : String
  pressure_points : List String
  response_strategy : String
  deriving DecidableEq, Repr

/-- The neutral analysis returned by `_analyze_incoming_message` when the
external call (or JSON parsing) fails. -/
def fallbackAnalysis : TacticAnalysis :=
  { tactic := "unknown", pressure_points := [], response_strategy := "professional" }

/-- The `_analyze_incoming_message` method.  The external OpenAI call and
the subsequent `json.loads` sit inside one `try`, so any failure —
including a non-parseable response — yields the fallback dict.
`message` and `context` feed only the prompt; the outcome of the external
call is the oracle argument `externalResult`. -/
def analyzeIncomingMessage (externalResult : Except String TacticAnalysis)
    (message : String) (context : NegotiationContext) : TacticAnalysis :=
  match externalResult with
  | .ok a => a
  | .error _ => fallbackAnalysis

/-- Error outcomes of the embedded methods.  `contextNotFound` is the
`ValueError` of `generate_response` (and the error dict of
`get_negotiation_status`); `indexError` is the unhandled `IndexError` from
`scored_templates[0]` on an empty ranking; `templateVariableError` is the
`KeyError` raised by `str.format` for a placeholder with no entry.
`noTemplateAvailable` names the error kind the specification postulates
for an empty ranking; the source never raises it. -/
inductive BotError
  | contextNotFound
  | noTemplateAvailable
  | indexError
  | templateVariableError (name : String)
  deriving DecidableEq, Repr

/-- Per-candidate score of `_select_template`: the template\x27s
`effectiveness_score`, plus `0.1` when the context has a (truthy) current
offer, the template id contains the substring `"salary"`, and
`current_offer.get("salary", 0) < (target_salary or 0)`. -/
def boostedScore (template : ResponseTemplate) (context : NegotiationContext) : ℚ :=
  let score := template.effectiveness_score
  match context.current_offer with
  | some offer =>
    if "salary".toList <:+: template.template_id.toList then
      if offer.salary.getD 0 < context.target_salary.getD 0 then score + 0.1
      else score
    else score
  | none => score

/-- The `_select_template` method: filter the catalog by the context\x27s
strategy, pair each candidate with its boosted score, stable-sort by
descending score (`sort(key=fun x => x[1], reverse=True)`), and take entry
`[0]`.  On an empty ranking the source indexes into an empty list, an
unhandled `IndexError`. -/
def selectTemplate (templates : List ResponseTemplate)
    (analysis : TacticAnalysis) (context : NegotiationContext) :
    Except BotError ResponseTemplate :=
  let strategy_templates :=
    templates.filter fun t => decide (t.strategy = context.strategy)
  let scored_templates :=
    strategy_templates.map fun t => (t, boostedScore t context)
  let ranked :=
    scored_templates.insertionSort fun a b => b.2 ≤ a.2
  match ranked with
  | [] => .error .indexError
  | (t, _) :: _ => .ok t

/-- The known default table of `_generate_ai_response`: the value put into
the format dict for a registered placeholder name, or `none` when the
`if`/`elif` chain has no branch for the name. -/
def templateVariableValue (v : String) (context : NegotiationContext) : Option String :=
  if v = "experience_years" then
    some (match context.user_profile.years_experience with
          | some n => toString n
          | none => "5+")
  else if v = "industry" then
    some (context.user_profile.industry.getD "technology")
  else if v = "achievement" then
    some (context.user_profile.key_achievement.getD "delivering exceptional results")
  else if v = "benefit_type" then
    some "health insurance"
  else if v = "skill_area" then
    some (context.user_profile.primary_skill.getD "software development")
  else if v = "specific_achievement" then
    some (context.user_profile.key_achievement.getD "increasing team productivity by 40%")
  else if v = "company_name" then
    some context.company_name
  else none

/-- The `variables` format dict built by the loop of
`_generate_ai_response`: one entry per declared template variable that the
`if`/`elif` chain recognises (unrecognised names are silently skipped). -/
def buildVariables (template : ResponseTemplate) (context : NegotiationContext) :
    List (String × String) :=
  template.template_variables.filterMap fun v =>
    (templateVariableValue v context).map fun s => (v, s)

/-- Python `template_text.format(**variables)`: substitute every
placeholder from the dict, raising `KeyError` (modelled as
`templateVariableError`) on the first placeholder with no entry; no
partially-filled text is ever returned. -/
def formatChunks (chunks : List TemplateChunk) (vars : List (String × String)) :
    Except BotError String :=
  match chunks with
  | [] => .ok ""
  | .lit s :: rest => (formatChunks rest vars).map fun r => s ++ r
  | .var name :: rest =>
    match dictGet? name vars with
    | none => .error (.templateVariableError name)
    | some val => (formatChunks rest vars).map fun r => val ++ r

/-- The `_generate_ai_response` method: fill the template, then enhance it
with the external call; on failure of that call, return the filled
template verbatim.  `enhanceResult` is the oracle for the external call;
on success the source returns `content.strip()`. -/
def generateAiResponse (enhanceResult : Except String String)
    (template : ResponseTemplate) (context : NegotiationContext)
    (analysis : TacticAnalysis) : Except BotError String :=
  match formatChunks template.template_text (buildVariables template context) with
  | .error e => .error e
  | .ok formatted =>
    match enhanceResult with
    | .ok s => .ok s.trim
    | .error _ => .ok formatted

/-- The `if offer_details:` step of `generate_response`: replace
`current_offer` and append an `offer_received` record; with no (truthy)
offer the context is untouched. -/
def applyOffer (context : NegotiationContext) (now : Nat) :
    Option Offer → NegotiationContext
  | some offer =>
    { context with
      current_offer := some offer,
      negotiation_history := context.negotiation_history ++
        [.offerReceived now offer] }
  | none => context

/-- The context a successful `generate_response` turn stores: the offer
update followed by the `response_sent` record. -/
def respondedContext (context : NegotiationContext) (now : Nat)
    (od : Option Offer) (template_used response : String) :
    NegotiationContext :=
  let c := applyOffer context now od
  { c with negotiation_history := c.negotiation_history ++
      [.responseSent now template_used response] }

/-- The `generate_response` method.  Mutations made before a raise persist
(the context object is updated in place in the source), so the updated
store is returned alongside the `Except` result.  `offer_details = some o`
models a truthy (non-empty) offer dict; `none` models `None` (or an empty,
hence falsy, dict). -/
def generateResponse (bot : BotState) (now : Nat)
    (analysisResult : Except String TacticAnalysis)
    (enhanceResult : Except String String) (context_id : String)
    (incoming_message : String) (offer_details : Option Offer) :
    Except BotError String × BotState :=
  match dictGet? context_id bot.negotiation_contexts with
  | none => (.error .contextNotFound, bot)
  | some context₀ =>
    let context₁ := applyOffer context₀ now offer_details
    let analysis := analyzeIncomingMessage analysisResult incoming_message context₁
    match selectTemplate bot.response_templates analysis context₁ with
    | .error e => (.error e, insertContext bot context_id context₁)
    | .ok template =>
      match generateAiResponse enhanceResult template context₁ analysis with
      | .error e => (.error e, insertContext bot context_id context₁)
      | .ok response =>
        let context₂ :=
          { context₁ with
            negotiation_history := context₁.negotiation_history ++
              [.responseSent now template.template_id response] }
        (.ok response, insertContext bot context_id context₂)

/-- The read-only projection returned by `get_negotiation_status`. -/
structure NegotiationStatus where
  company : String
  position : String
  strategy : String
  current_offer : Option Offer
  negotiation_history : List HistoryRecord
  leverage_points : List String
  target_salary : Option Int
  deriving DecidableEq, Repr

/-- The `get_negotiation_status` method; an unknown id yields the error
dict `\x7b"error": "Context not found"\x7d` rather than a status. -/
def getNegotiationStatus (bot : BotState) (context_id : String) :
    Except BotError NegotiationStatus :=
  match dictGet? context_id bot.negotiation_contexts with
  | none => .error .contextNotFound
  | some c =>
    .ok { company := c.company_name,
          position := c.position,
          strategy := strategyValue c.strategy,
          current_offer := c.current_offer,
          negotiation_history := c.negotiation_history,
          leverage_points := c.leverage_points,
          target_salary := c.target_salary }

/-- The `update_strategy` method.  The source guards with
`if context_id in self.negotiation_contexts:` and silently does nothing on
an unknown id; it can raise nothing, so the embedding returns only the
(possibly unchanged) store. -/
def updateStrategy (bot : BotState) (context_id : String)
    (new_strategy : NegotiationStrategy) : BotState :=
  match dictGet? context_id bot.negotiation_contexts with
  | some c =>
    let c₂ := { c with strategy := new_strategy }
    insertContext bot context_id c₂
  | none => bot

/-- The `add_leverage_point` method; like `update_strategy`, a silent
no-op on an unknown id. -/
def addLeveragePoint (bot : BotState) (context_id : String)
    (leverage_point : String) : BotState :=
  match dictGet? context_id bot.negotiation_contexts with
  | some c =>
    let c₂ := { c with leverage_points := c.leverage_points ++ [leverage_point] }
    insertContext bot context_id c₂
  | none => bot

/-- First element of maximal key in a list: the element a stable
descending sort puts first.  `firstMaxKey sc l` is the earliest element of
`l` whose key is maximal. -/
def firstMaxKey (sc : α → ℚ) : List α → Option α
  | [] => none
  | a :: l =>
    match firstMaxKey sc l with
    | none => some a
    | some m => if sc a < sc m then some m else some a

/-- Constructor test for `Except`. -/
def exceptOk : Except ε α → Bool
  | .ok _ => true
  | .error _ => false

/-- The inputs of one `generate_response` call: the clock value and the
two external-call oracles alongside the message and optional offer. -/
structure TurnInput where
  now : Nat
  analysisResult : Except String TacticAnalysis
  enhanceResult : Except String String
  incoming_message : String
  offer_details : Option Offer

/-- One `generate_response` call described by a `TurnInput`. -/
def applyTurn (bot : BotState) (cid : String) (i : TurnInput) :
    Except BotError String × BotState :=
  generateResponse bot i.now i.analysisResult i.enhanceResult cid
    i.incoming_message i.offer_details

/-- Sequential execution of several `generate_response` calls against one
context identifier. -/
def runTurns (bot : BotState) (cid : String) : List TurnInput → BotState
  | [] => bot
  | i :: rest => runTurns (applyTurn bot cid i).2 cid rest

/-- Every call of the sequence succeeds. -/
def allOk (bot : BotState) (cid : String) : List TurnInput → Bool
  | [] => true
  | i :: rest =>
    exceptOk (applyTurn bot cid i).1 && allOk (applyTurn bot cid i).2 cid rest

/-- The history-record `type` tags one successful call appends: an
`offer_received` tag when an offer is supplied, then a `response_sent`
tag. -/
def turnRecTypes (i : TurnInput) : List String :=
  (if i.offer_details.isSome then ["offer_received"] else []) ++ ["response_sent"]

/-- Length of the history stored under an identifier (0 when absent). -/
def histLen (bot : BotState) (context_id : String) : Nat :=
  match dictGet? context_id bot.negotiation_contexts with
  | none => 0
  | some c => c.negotiation_history.length

/-- Decimal digit list of a natural number, most significant first;
reference implementation used to reason about `Nat.repr`. -/
def natChars (n : Nat) : List Char :=
  if h : n < 10 then [Nat.digitChar n]
  else natChars (n / 10) ++ [Nat.digitChar (n % 10)]
decreasing_by exact Nat.div_lt_self (by omega) (by omega)

/-- Decimal decoding of a digit-character list, used to invert `natChars`. -/
def decodeChars (acc : Nat) (l : List Char) : Nat :=
  l.foldl (fun acc c => 10 * acc + (c.toNat - 48)) acc

/-- The boost condition exactly as the specification words it: the
template identifier contains the substring `"salary"` and the context has
a current offer whose salary is strictly below the target salary, a
missing target salary being treated as 0. -/
def boostConditionSpec (t : ResponseTemplate) (c : NegotiationContext) : Bool :=
  decide ("salary".toList <:+: t.template_id.toList) &&
    match c.current_offer with
    | some o => decide (o.salary.getD 0 < c.target_salary.getD 0)
    | none => false

/-- The placeholder names of the known default table (the names the
`if`/`elif` chain of `_generate_ai_response` recognises). -/
def knownPlaceholders : List String :=
  ["experience_years", "industry", "achievement", "benefit_type",
   "skill_area", "specific_achievement", "company_name"]

/-- The example profile of the source\x27s `main()` demo. -/
def demoProfile : UserProfile :=
  { years_experience := some 7,
    industry := some "technology",
    education_level := some "Masters",
    key_achievement := some "led a team that increased revenue by 150%",
    primary_skill := some "product management",
    certifications := some ["PMP", "Agile Certified"],
    leadership_experience := some true,
    industry_awards := some ["Top Performer 2023"] }

/-- A concrete context as `create_negotiation_context` builds it for the
demo profile. -/
def demoContext : NegotiationContext :=
  { company_name := "TechCorp Inc",
    position := "Senior Product Manager",
    current_offer := none,
    user_profile := demoProfile,
    negotiation_history := [],
    strategy := .professionalPassiveAggressive,
    target_salary := some 120000,
    target_benefits := ["health_insurance", "401k", "stock_options"],
    deal_breakers := ["no_remote_work", "salary_below_100k"],
    leverage_points := identifyLeveragePoints demoProfile }

/-- The demo creation call against a fresh bot. -/
def demoCreate : String × BotState :=
  createNegotiationContext initialBot 1700000000 "TechCorp Inc"
    "Senior Product Manager" demoProfile (some 120000)
    (some ["health_insurance", "401k", "stock_options"])
    (some ["no_remote_work", "salary_below_100k"])

/-- The identifier returned by the demo creation call. -/
def demoCid : String := demoCreate.1

/-- The bot state after the demo creation call. -/
def demoBot : BotState := demoCreate.2

/-- The low offer of the demo (`salary = 85000`). -/
def demoOffer : Offer :=
  { salary := some 85000,
    benefits := ["basic_health", "401k"],
    start_date := some "immediately",
    remote := some false }

/-- A hypothetical catalog template whose text references the known
placeholder `industry` without declaring it in `variables`. -/
def demoBadTemplate : ResponseTemplate :=
  { template_id := "bad_template",
    strategy := .professionalPassiveAggressive,
    tone := .politeButFirm,
    template_text := [.lit "I work in ", .var "industry", .lit "."],
    template_variables := [],
    effectiveness_score := 0.5 }

/-- Two demo turns: one with the low offer and both external calls
succeeding, one without an offer and both external calls failing. -/
def demoTurns : List TurnInput :=
  [ { now := 1700000060,
      analysisResult := .ok { tactic := "lowball_offer",
                              pressure_points := ["urgency"],
                              response_strategy := "professional_pushback" },
      enhanceResult := .ok "Enhanced response",
      incoming_message := "We need your decision by Friday.",
      offer_details := some demoOffer },
    { now := 1700000120,
      analysisResult := .error "api failure",
      enhanceResult := .error "api failure",
      incoming_message := "Can you decide today?",
      offer_details := none } ]

/-! ### Association-list dictionary lemmas -/

theorem dictGet?_insert_self (k : String) (v : α) (l : List (String × α)) :
    dictGet? k (dictInsert k v l) = some v := by
  induction l with
  | nil => simp [dictInsert, dictGet?]
  | cons p rest ih =>
    obtain ⟨k₂, w⟩ := p
    by_cases h : k₂ = k
    · subst h; simp [dictInsert, dictGet?]
    · simp [dictInsert, dictGet?, h, ih]

theorem dictGet?_insert_ne (k k₂ : String) (v : α) (l : List (String × α))
    (h : k ≠ k₂) : dictGet? k₂ (dictInsert k v l) = dictGet? k₂ l := by
  induction l with
  | nil => simp [dictInsert, dictGet?, h]
  | cons p rest ih =>
    obtain ⟨k₃, w⟩ := p
    by_cases h₃ : k₃ = k
    · subst h₃
      simp [dictInsert, dictGet?, h]
    · simp [dictInsert, dictGet?, h₃, ih]

/-! ### The head of a stable descending sort is the first maximum -/

theorem firstMaxKey_eq_none_iff (sc : α → ℚ) (l : List α) :
    firstMaxKey sc l = none ↔ l = [] := by
  cases l with
  | nil => simp [firstMaxKey]
  | cons a l =>
    simp only [firstMaxKey]
    cases firstMaxKey sc l with
    | none => simp
    | some m => by_cases h : sc a < sc m <;> simp [h]

theorem firstMaxKey_mem (sc : α → ℚ) (l : List α) (m : α)
    (h : firstMaxKey sc l = some m) : m ∈ l := by
  induction l with
  | nil => simp [firstMaxKey] at h
  | cons a l ih =>
    simp only [firstMaxKey] at h
    cases hl : firstMaxKey sc l with
    | none => rw [hl] at h; simp at h; simp [h]
    | some m₂ =>
      rw [hl] at h
      by_cases hc : sc a < sc m₂
      · simp [hc] at h
        subst h
        exact List.mem_cons_of_mem _ (ih hl)
      · simp [hc] at h
        simp [h]

theorem head?_insertionSort (sc : α → ℚ) (l : List α) :
    (l.insertionSort fun a b => sc b ≤ sc a).head? = firstMaxKey sc l := by
  induction l with
  | nil => rfl
  | cons a l ih =>
    rw [List.insertionSort]
    cases hs : List.insertionSort (fun a b => sc b ≤ sc a) l with
    | nil =>
      rw [hs] at ih
      simp only [List.orderedInsert, firstMaxKey, ← ih]
      rfl
    | cons b t =>
      rw [hs] at ih
      simp only [List.head?] at ih
      rw [List.orderedInsert]
      by_cases hr : sc b ≤ sc a
      · rw [if_pos hr]
        simp only [firstMaxKey, ← ih, List.head?]
        rw [if_neg (not_lt.mpr hr)]
      · rw [if_neg hr]
        simp only [firstMaxKey, ← ih, List.head?]
        rw [if_pos (lt_of_not_le hr)]

theorem firstMaxKey_split (sc : α → ℚ) (l : List α) (m : α)
    (h : firstMaxKey sc l = some m) :
    ∃ pre suf, l = pre ++ m :: suf ∧ (∀ u ∈ l, sc u ≤ sc m) ∧
      ∀ u ∈ pre, sc u < sc m := by
  induction l generalizing m with
  | nil => simp [firstMaxKey] at h
  | cons a l ih =>
    simp only [firstMaxKey] at h
    cases hl : firstMaxKey sc l with
    | none =>
      rw [hl] at h
      simp only [Option.some.injEq] at h
      subst h
      rw [firstMaxKey_eq_none_iff] at hl
      subst hl
      exact ⟨[], [], rfl, by simp, by simp⟩
    | some m₂ =>
      rw [hl] at h
      obtain ⟨pre, suf, he, hmax, hpre⟩ := ih m₂ hl
      by_cases hc : sc a < sc m₂
      · simp only [hc, if_true, Option.some.injEq] at h
        subst h
        refine ⟨a :: pre, suf, by simp [he], ?_, ?_⟩
        · intro u hu
          rcases List.mem_cons.mp hu with hu | hu
          · subst hu; exact le_of_lt hc
          · exact hmax u hu
        · intro u hu
          rcases List.mem_cons.mp hu with hu | hu
          · subst hu; exact hc
          · exact hpre u hu
      · simp only [hc, if_false, Option.some.injEq] at h
        subst h
        refine ⟨[], l, rfl, ?_, by simp⟩
        intro u hu
        rcases List.mem_cons.mp hu with hu | hu
        · subst hu; exact le_refl _
        · exact le_trans (hmax u hu) (not_lt.mp hc)

theorem firstMaxKey_map_pair (f : α → ℚ) (l : List α) :
    firstMaxKey Prod.snd (l.map fun x => (x, f x)) =
      (firstMaxKey f l).map fun x => (x, f x) := by
  induction l with
  | nil => rfl
  | cons a l ih =>
    simp only [List.map_cons, firstMaxKey, ih]
    cases firstMaxKey f l with
    | none => rfl
    | some m =>
      simp only [Option.map_some]
      by_cases hc : f a < f m <;> simp [hc]

/-- Characterisation of `_select_template` as the first strategy-matching
template of maximal boosted score. -/
theorem selectTemplate_eq_firstMaxKey (templates : List ResponseTemplate)
    (analysis : TacticAnalysis) (context : NegotiationContext) :
    selectTemplate templates analysis context =
      match firstMaxKey (fun t => boostedScore t context)
          (templates.filter fun t => decide (t.strategy = context.strategy)) with
      | none => .error .indexError
      | some t => .ok t := by
  have key : selectTemplate templates analysis context =
      match List.insertionSort (fun a b : ResponseTemplate × ℚ => b.2 ≤ a.2)
          ((templates.filter fun t => decide (t.strategy = context.strategy)).map
            fun t => (t, boostedScore t context)) with
      | [] => .error .indexError
      | (t, _) :: _ => .ok t := rfl
  have h := head?_insertionSort (α := ResponseTemplate × ℚ) Prod.snd
    ((templates.filter fun t => decide (t.strategy = context.strategy)).map
      fun t => (t, boostedScore t context))
  rw [firstMaxKey_map_pair] at h
  rw [key]
  cases hs : List.insertionSort (fun a b : ResponseTemplate × ℚ => b.2 ≤ a.2)
      ((templates.filter fun t => decide (t.strategy = context.strategy)).map
        fun t => (t, boostedScore t context)) with
  | nil =>
    rw [hs] at h
    simp only [List.head?] at h
    cases hf : firstMaxKey (fun t => boostedScore t context)
        (templates.filter fun t => decide (t.strategy = context.strategy)) with
    | none => rfl
    | some m => rw [hf] at h; simp at h
  | cons p rest =>
    rw [hs] at h
    simp only [List.head?] at h
    cases hf : firstMaxKey (fun t => boostedScore t context)
        (templates.filter fun t => decide (t.strategy = context.strategy)) with
    | none => rw [hf] at h; simp at h
    | some m =>
      rw [hf] at h
      rw [show Option.map (fun x => (x, boostedScore x context)) (some m) =
            some (m, boostedScore m context) from rfl] at h
      injection h with h₂
      subst h₂
      rfl

/-- Shared characterisation: on a non-empty strategy filtering,
`_select_template` returns the first candidate of maximal boosted score. -/
theorem selectTemplate_spec (templates : List ResponseTemplate)
    (analysis : TacticAnalysis) (context : NegotiationContext)
    (h : templates.filter (fun t => decide (t.strategy = context.strategy)) ≠ []) :
    ∃ t pre suf,
      selectTemplate templates analysis context = .ok t ∧
      t.strategy = context.strategy ∧
      templates.filter (fun t => decide (t.strategy = context.strategy)) =
        pre ++ t :: suf ∧
      (∀ u ∈ templates.filter (fun t => decide (t.strategy = context.strategy)),
        boostedScore u context ≤ boostedScore t context) ∧
      (∀ u ∈ pre, boostedScore u context < boostedScore t context) := by
  cases hf : firstMaxKey (fun t => boostedScore t context)
      (templates.filter fun t => decide (t.strategy = context.strategy)) with
  | none => exact absurd ((firstMaxKey_eq_none_iff _ _).mp hf) h
  | some t =>
    obtain ⟨pre, suf, he, hmax, hpre⟩ := firstMaxKey_split _ _ _ hf
    have hmem : t ∈ templates.filter fun t => decide (t.strategy = context.strategy) :=
      firstMaxKey_mem _ _ _ hf
    have hstrat : t.strategy = context.strategy := by
      have := (List.mem_filter.mp hmem).2
      exact of_decide_eq_true this
    refine ⟨t, pre, suf, ?_, hstrat, he, hmax, hpre⟩
    rw [selectTemplate_eq_firstMaxKey, hf]

/-- C1.  For every context whose strategy matches at least one catalog
template, `select` returns the first template in catalog order among the
strategy-matching candidates having maximal boosted score (stable sort by
score descending, ties keeping first-inserted order); in particular the
returned template\x27s strategy equals `context.strategy`. -/
theorem select_returns_first_maximal_candidate (templates : List ResponseTemplate)
    (analysis : TacticAnalysis) (context : NegotiationContext)
    (h : templates.filter (fun t => decide (t.strategy = context.strategy)) ≠ []) :
    ∃ t pre suf,
      selectTemplate templates analysis context = .ok t ∧
      t.strategy = context.strategy ∧
      templates.filter (fun t => decide (t.strategy = context.strategy)) =
        pre ++ t :: suf ∧
      (∀ u ∈ templates.filter (fun t => decide (t.strategy = context.strategy)),
        boostedScore u context ≤ boostedScore t context) ∧
      (∀ u ∈ pre, boostedScore u context < boostedScore t context) :=
  selectTemplate_spec templates analysis context h

/-- Witness for C1: the demo context against the shipped catalog. -/
theorem select_returns_first_maximal_candidate_witness :
    loadResponseTemplates.filter
        (fun t => decide (t.strategy = demoContext.strategy)) ≠ [] ∧
    (∃ t pre suf,
      selectTemplate loadResponseTemplates fallbackAnalysis demoContext = .ok t ∧
      t.strategy = demoContext.strategy ∧
      loadResponseTemplates.filter (fun t => decide (t.strategy = demoContext.strategy)) =
        pre ++ t :: suf ∧
      (∀ u ∈ loadResponseTemplates.filter
          (fun t => decide (t.strategy = demoContext.strategy)),
        boostedScore u demoContext ≤ boostedScore t demoContext) ∧
      (∀ u ∈ pre, boostedScore u demoContext < boostedScore t demoContext)) :=
  ⟨by decide,
   select_returns_first_maximal_candidate loadResponseTemplates fallbackAnalysis
     demoContext (by decide)⟩

/-- C2.  The per-candidate score of `select` is the effectiveness score
plus `0.1` exactly when the template id contains the substring `"salary"`
and the context has a current offer whose salary is strictly below the
target salary (a missing target salary is treated as 0); otherwise the
boost is not applied. -/
theorem select_boost_applied_iff (t : ResponseTemplate) (c : NegotiationContext) :
    boostedScore t c =
      t.effectiveness_score + (if boostConditionSpec t c then (0.1 : ℚ) else 0) := by
  unfold boostedScore boostConditionSpec
  cases c.current_offer with
  | none => simp
  | some o =>
    by_cases h₁ : "salary".toList <:+: t.template_id.toList <;>
      simp only [String.toList] at h₁
    · by_cases h₂ : o.salary.getD 0 < c.target_salary.getD 0 <;> simp [h₁, h₂]
    · simp [h₁]

/-- Counterexample for C3: on an empty strategy filtering the source
indexes into the empty ranking (an unhandled `IndexError` from
`scored_templates[0]`); it does not fail with an explicitly handled
`NoTemplateAvailable`. -/
theorem select_empty_counterexample :
    selectTemplate [] fallbackAnalysis demoContext = .error .indexError ∧
    (Except.error BotError.indexError : Except BotError ResponseTemplate) ≠
      .error .noTemplateAvailable :=
  ⟨rfl, by simp⟩

/-- C3 (amended).  Whenever the catalog contains zero templates whose
strategy equals `context.strategy`, `select` fails by indexing into the
empty ranking — the unhandled `IndexError` — not with an explicitly
handled `NoTemplateAvailable` error (no such error exists in the source). -/
theorem select_empty_filter_raises_indexError (templates : List ResponseTemplate)
    (analysis : TacticAnalysis) (context : NegotiationContext)
    (h : templates.filter (fun t => decide (t.strategy = context.strategy)) = []) :
    selectTemplate templates analysis context = .error .indexError := by
  rw [selectTemplate_eq_firstMaxKey, h]
  rfl

/-- Witness for the amended C3: the empty catalog. -/
theorem select_empty_filter_raises_indexError_witness :
    ([] : List ResponseTemplate).filter
        (fun t => decide (t.strategy = demoContext.strategy)) = [] ∧
    selectTemplate [] fallbackAnalysis demoContext = .error .indexError :=
  ⟨rfl, select_empty_filter_raises_indexError [] fallbackAnalysis demoContext rfl⟩

/-- C10.  `_select_template` never reads its `analysis` argument: for any
two tactic-analysis values the selection result is identical, so the
selection depends only on the context and the catalog. -/
theorem select_independent_of_analysis (templates : List ResponseTemplate)
    (a₁ a₂ : TacticAnalysis) (context : NegotiationContext) :
    selectTemplate templates a₁ context = selectTemplate templates a₂ context := rfl

/-! ### Leverage points -/

theorem mem_if_singleton {c : Prop} [Decidable c] (s t : String) :
    (s ∈ if c then [t] else []) ↔ c ∧ s = t := by
  split <;> simp_all

/-- C6.  A profile yields the `senior_experience` leverage tag exactly
when `years_experience` exceeds 5; a profile with the field absent (read
as 0) or at most 5 does not.  The derivation is a total Lean function, so
it is deterministic, has no side effects and no failure path. -/
theorem leverage_senior_experience_iff (p : UserProfile) :
    "senior_experience" ∈ identifyLeveragePoints p ↔
      5 < p.years_experience.getD 0 := by
  unfold identifyLeveragePoints
  simp [List.mem_append, mem_if_singleton]

/-! ### Decimal representation: `Nat.repr` is injective -/

theorem digitChar_toNat (d : Nat) (h : d < 10) :
    (Nat.digitChar d).toNat = 48 + d := by
  interval_cases d <;> rfl

theorem toDigitsCore_eq_natChars (fuel : Nat) :
    ∀ (n : Nat) (ds : List Char), n < fuel →
      Nat.toDigitsCore 10 fuel n ds = natChars n ++ ds := by
  induction fuel with
  | zero => omega
  | succ fuel ih =>
    intro n ds h
    by_cases h10 : n / 10 = 0
    · have hn : n < 10 := by omega
      simp only [Nat.toDigitsCore, h10, if_true]
      rw [natChars, dif_pos hn, Nat.mod_eq_of_lt hn]
      rfl
    · have hge : 10 ≤ n := by omega
      have hdiv : n / 10 < n := Nat.div_lt_self (by omega) (by omega)
      simp only [Nat.toDigitsCore, h10, if_false]
      rw [ih (n / 10) _ (by omega)]
      conv_rhs => rw [natChars]
      rw [dif_neg (by omega : ¬ n < 10)]
      simp [List.append_assoc]

theorem natChars_asString_repr (n : Nat) :
    Nat.repr n = (natChars n).asString := by
  show (Nat.toDigits 10 n).asString = (natChars n).asString
  rw [Nat.toDigits, toDigitsCore_eq_natChars (n + 1) n [] (Nat.lt_succ_self n)]
  rw [List.append_nil]

theorem decodeChars_natChars (n : Nat) :
    ∀ acc, decodeChars acc (natChars n) =
      acc * 10 ^ (natChars n).length + n := by
  induction n using Nat.strong_induction_on with
  | _ n ih =>
    intro acc
    by_cases h : n < 10
    · rw [natChars, dif_pos h]
      simp only [decodeChars, List.foldl, List.length_cons, List.length_nil]
      rw [digitChar_toNat n h]
      ring_nf
      omega
    · rw [natChars, dif_neg h]
      have hdiv : n / 10 < n := Nat.div_lt_self (by omega) (by omega)
      have hmod : n % 10 < 10 := Nat.mod_lt n (by omega)
      simp only [decodeChars, List.foldl_append, List.foldl, List.length_append,
        List.length_cons, List.length_nil]
      have hrec := ih (n / 10) hdiv acc
      simp only [decodeChars] at hrec
      rw [hrec, digitChar_toNat _ hmod]
      have hdm : 10 * (n / 10) + n % 10 = n := by
        have := Nat.div_add_mod n 10
        omega
      have hpow : 10 ^ ((natChars (n / 10)).length + 1) =
          10 ^ (natChars (n / 10)).length * 10 := pow_succ 10 _
      rw [hpow]
      ring_nf
      omega

theorem natChars_injective : Function.Injective natChars := by
  intro m n h
  have hm := decodeChars_natChars m 0
  have hn := decodeChars_natChars n 0
  rw [h] at hm
  rw [hm] at hn
  omega

theorem nat_repr_injective : Function.Injective Nat.repr := by
  intro m n h
  rw [natChars_asString_repr, natChars_asString_repr] at h
  apply natChars_injective
  have hd := congrArg String.data h
  simpa [List.asString] using hd

theorem contextId_time_injective (c p : String) (t₁ t₂ : Nat)
    (h : contextId c p t₁ = contextId c p t₂) : t₁ = t₂ := by
  unfold contextId at h
  have hd := congrArg String.data h
  simp only [String.data_append] at hd
  have hrepr : (Nat.repr t₁).data = (Nat.repr t₂).data :=
    List.append_cancel_left hd
  exact nat_repr_injective (String.ext hrepr)

/-- Counterexample for C4: two `create_negotiation_context` calls in the
same process run, with identical company and position arguments and the
same integer second from `time.time()`, return the same identifier. -/
theorem create_same_second_collision :
    (createNegotiationContext initialBot 1700000000 "TechCorp Inc"
      "Senior Product Manager" demoProfile none none none).1 =
    (createNegotiationContext
      (createNegotiationContext initialBot 1700000000 "TechCorp Inc"
        "Senior Product Manager" demoProfile none none none).2
      1700000000 "TechCorp Inc" "Senior Product Manager"
      demoProfile none none none).1 := rfl

/-- C4 (amended).  Two `create_negotiation_context` calls with the same
company and position return distinct identifiers whenever their
integer-second timestamps differ; within the same second the identifiers
collide (and the later call silently replaces the stored context). -/
theorem create_ids_distinct_of_distinct_seconds
    (b₁ b₂ : BotState) (now₁ now₂ : Nat) (c p : String)
    (u₁ u₂ : UserProfile) (ts₁ ts₂ : Option Int)
    (tb₁ tb₂ db₁ db₂ : Option (List String)) (h : now₁ ≠ now₂) :
    (createNegotiationContext b₁ now₁ c p u₁ ts₁ tb₁ db₁).1 ≠
      (createNegotiationContext b₂ now₂ c p u₂ ts₂ tb₂ db₂).1 := by
  intro he
  exact h (contextId_time_injective c p now₁ now₂ he)

/-- Witness for the amended C4: creations one second apart. -/
theorem create_ids_distinct_of_distinct_seconds_witness :
    (1700000000 : Nat) ≠ 1700000001 ∧
    (createNegotiationContext initialBot 1700000000 "TechCorp Inc"
      "Senior Product Manager" demoProfile none none none).1 ≠
    (createNegotiationContext initialBot 1700000001 "TechCorp Inc"
      "Senior Product Manager" demoProfile none none none).1 :=
  ⟨by decide,
   create_ids_distinct_of_distinct_seconds initialBot initialBot
     1700000000 1700000001 "TechCorp Inc" "Senior Product Manager"
     demoProfile demoProfile none none none none none none (by decide)⟩

/-! ### Unknown-identifier behaviour of the per-context operations -/

/-- Counterexample for C8: `update_strategy` and `add_leverage_point`
called with an unknown identifier complete normally — the `if context_id
in self.negotiation_contexts:` guard silently swallows the condition, no
error is reported and the store is returned unchanged. -/
theorem unknown_context_silent_noop_counterexample :
    dictGet? "ghost" initialBot.negotiation_contexts = none ∧
    updateStrategy initialBot "ghost" .confidentAssertive = initialBot ∧
    addLeveragePoint initialBot "ghost" "competing_offer" = initialBot :=
  ⟨rfl, rfl, rfl⟩

/-- C8 (amended).  On an unknown context identifier, `generate_response`
raises `ContextNotFound` (the `ValueError`) with the store unchanged and
`get_negotiation_status` returns its error marker, neither fabricating a
context; `update_strategy` and `add_leverage_point`, however, are silent
no-ops that report nothing and leave the store unchanged. -/
theorem unknown_context_behaviour (bot : BotState) (now : Nat)
    (ar : Except String TacticAnalysis) (er : Except String String)
    (context_id msg : String) (od : Option Offer)
    (s : NegotiationStrategy) (tag : String)
    (h : dictGet? context_id bot.negotiation_contexts = none) :
    generateResponse bot now ar er context_id msg od =
      (.error .contextNotFound, bot) ∧
    getNegotiationStatus bot context_id = .error .contextNotFound ∧
    updateStrategy bot context_id s = bot ∧
    addLeveragePoint bot context_id tag = bot := by
  refine ⟨?_, ?_, ?_, ?_⟩ <;>
    simp [generateResponse, getNegotiationStatus, updateStrategy,
      addLeveragePoint, h]

/-- Witness for the amended C8: a fresh bot and the identifier `ghost`. -/
theorem unknown_context_behaviour_witness :
    dictGet? "ghost" initialBot.negotiation_contexts = none ∧
    (generateResponse initialBot 0 (.error "down") (.error "down")
        "ghost" "hello" none = (.error .contextNotFound, initialBot) ∧
      getNegotiationStatus initialBot "ghost" = .error .contextNotFound ∧
      updateStrategy initialBot "ghost" .confidentAssertive = initialBot ∧
      addLeveragePoint initialBot "ghost" "tag" = initialBot) :=
  ⟨rfl,
   unknown_context_behaviour initialBot 0 (.error "down") (.error "down")
     "ghost" "hello" none .confidentAssertive "tag" rfl⟩

/-! ### Template filling -/

theorem templateVariableValue_isSome_iff (v : String) (c : NegotiationContext) :
    (templateVariableValue v c).isSome = true ↔ v ∈ knownPlaceholders := by
  unfold templateVariableValue knownPlaceholders
  split_ifs with h₁ h₂ h₃ h₄ h₅ h₆ h₇ <;> simp_all

theorem dictGet?_buildVariables_eq_none_iff (t : ResponseTemplate)
    (c : NegotiationContext) (name : String) :
    dictGet? name (buildVariables t c) = none ↔
      ¬ (name ∈ t.template_variables ∧ name ∈ knownPlaceholders) := by
  rw [← templateVariableValue_isSome_iff name c]
  unfold buildVariables
  induction t.template_variables with
  | nil => simp [dictGet?]
  | cons v rest ih =>
    by_cases hn : v = name
    · subst hn
      cases hv : templateVariableValue v c with
      | none => simp [List.filterMap_cons, hv, ih]
      | some s => simp [List.filterMap_cons, hv, dictGet?]
    · cases hv : templateVariableValue v c with
      | none => simp [List.filterMap_cons, hv, ih, Ne.symm hn]
      | some s => simp [List.filterMap_cons, hv, dictGet?, hn, Ne.symm hn, ih]

theorem formatChunks_ok_iff (chunks : List TemplateChunk)
    (vars : List (String × String)) :
    (∃ s, formatChunks chunks vars = .ok s) ↔
      ∀ name ∈ textVars chunks, dictGet? name vars ≠ none := by
  induction chunks with
  | nil => simp [formatChunks, textVars]
  | cons chunk rest ih =>
    cases chunk with
    | lit s =>
      simp only [formatChunks, textVars]
      rw [← ih]
      cases formatChunks rest vars <;> simp [Except.map]
    | var name =>
      simp only [formatChunks, textVars]
      cases hv : dictGet? name vars with
      | none => simp [hv]
      | some val =>
        rw [show (∀ n ∈ name :: textVars rest, dictGet? n vars ≠ none) ↔
              ∀ n ∈ textVars rest, dictGet? n vars ≠ none by simp [hv]]
        rw [← ih]
        cases formatChunks rest vars <;> simp [Except.map]

theorem formatChunks_error_classify (chunks : List TemplateChunk)
    (vars : List (String × String)) (e : BotError)
    (h : formatChunks chunks vars = .error e) :
    ∃ name, e = .templateVariableError name ∧ name ∈ textVars chunks ∧
      dictGet? name vars = none := by
  induction chunks with
  | nil => simp [formatChunks] at h
  | cons chunk rest ih =>
    cases chunk with
    | lit s =>
      simp only [formatChunks] at h
      cases hr : formatChunks rest vars with
      | ok r => rw [hr] at h; simp [Except.map] at h
      | error e₂ =>
        rw [hr] at h
        simp only [Except.map] at h
        injection h with h₂
        subst h₂
        obtain ⟨name, he, hmem, hnone⟩ := ih hr
        exact ⟨name, he, by simp [textVars, hmem], hnone⟩
    | var name =>
      simp only [formatChunks] at h
      cases hv : dictGet? name vars with
      | none =>
        rw [hv] at h
        injection h with h₂
        exact ⟨name, h₂.symm, by simp [textVars], hv⟩
      | some val =>
        rw [hv] at h
        cases hr : formatChunks rest vars with
        | ok r => rw [hr] at h; simp [Except.map] at h
        | error e₂ =>
          rw [hr] at h
          simp only [Except.map] at h
          injection h with h₂
          subst h₂
          obtain ⟨name₂, he, hmem, hnone⟩ := ih hr
          exact ⟨name₂, he, by simp [textVars, hmem], hnone⟩

/-- Counterexample for C9: a template whose text references the
placeholder `industry` — a name that is in the known default table — but
whose declared `variables` list is empty fails with
`TemplateVariableError`, so failing is not equivalent to referencing a
placeholder outside the known default table. -/
theorem template_filling_counterexample :
    "industry" ∈ knownPlaceholders ∧
    formatChunks demoBadTemplate.template_text
        (buildVariables demoBadTemplate demoContext) =
      .error (.templateVariableError "industry") :=
  ⟨by decide, rfl⟩

/-- C9 (amended).  Filling the selected template\x27s placeholders never
consults more of the profile than the per-placeholder defaults (a missing
profile field never raises: the right side below does not mention the
profile), and filling fails — with `TemplateVariableError`, returning no
partially-filled text — exactly when the template\x27s text references a
placeholder that is not among the template\x27s declared variables that
appear in the known default table. -/
theorem template_filling_characterisation (t : ResponseTemplate)
    (c : NegotiationContext) :
    ((∃ s, formatChunks t.template_text (buildVariables t c) = .ok s) ↔
      ∀ name ∈ textVars t.template_text,
        name ∈ t.template_variables ∧ name ∈ knownPlaceholders) ∧
    ∀ e, formatChunks t.template_text (buildVariables t c) = .error e →
      ∃ name, e = .templateVariableError name ∧
        name ∈ textVars t.template_text ∧
        ¬ (name ∈ t.template_variables ∧ name ∈ knownPlaceholders) := by
  constructor
  · rw [formatChunks_ok_iff]
    constructor
    · intro h name hmem
      have h₂ : ¬ (dictGet? name (buildVariables t c) = none) := h name hmem
      rw [dictGet?_buildVariables_eq_none_iff] at h₂
      exact not_not.mp h₂
    · intro h name hmem
      show ¬ (dictGet? name (buildVariables t c) = none)
      rw [dictGet?_buildVariables_eq_none_iff]
      exact not_not.mpr (h name hmem)
  · intro e he
    obtain ⟨name, h₁, h₂, h₃⟩ := formatChunks_error_classify _ _ _ he
    rw [dictGet?_buildVariables_eq_none_iff] at h₃
    exact ⟨name, h₁, h₂, h₃⟩

/-- Witness for the amended C9: the bad template fails with
`TemplateVariableError "industry"` and the classification names the
offending placeholder. -/
theorem template_filling_characterisation_witness :
    formatChunks demoBadTemplate.template_text
        (buildVariables demoBadTemplate demoContext) =
      .error (.templateVariableError "industry") ∧
    (∃ name, (BotError.templateVariableError "industry") =
        .templateVariableError name ∧
      name ∈ textVars demoBadTemplate.template_text ∧
      ¬ (name ∈ demoBadTemplate.template_variables ∧
          name ∈ knownPlaceholders)) :=
  ⟨rfl, (template_filling_characterisation demoBadTemplate demoContext).2
    (.templateVariableError "industry") rfl⟩

/-! ### The shipped catalog always selects and always fills -/

theorem catalogFilter_ne_nil (s : NegotiationStrategy) :
    loadResponseTemplates.filter (fun t => decide (t.strategy = s)) ≠ [] := by
  cases s <;> decide

theorem append_ne_empty_of_left (s t : String) (h : s ≠ "") : s ++ t ≠ "" := by
  intro hcon
  apply h
  have hd := congrArg String.data hcon
  rw [String.data_append] at hd
  have hnil : s.data = [] ∧ t.data = [] := List.append_eq_nil.mp (by simpa using hd)
  exact String.ext (by simpa using hnil.1)

theorem formatChunks_lit_ne_empty (s₀ : String) (rest : List TemplateChunk)
    (vars : List (String × String)) (s : String)
    (h : formatChunks (.lit s₀ :: rest) vars = .ok s) (h₀ : s₀ ≠ "") :
    s ≠ "" := by
  simp only [formatChunks] at h
  cases hr : formatChunks rest vars with
  | error e => rw [hr] at h; simp [Except.map] at h
  | ok r =>
    rw [hr] at h
    simp only [Except.map] at h
    injection h with h₂
    subst h₂
    exact append_ne_empty_of_left s₀ r h₀

theorem catalog_fill_ok (t : ResponseTemplate) (ht : t ∈ loadResponseTemplates)
    (c : NegotiationContext) :
    ∃ s, formatChunks t.template_text (buildVariables t c) = .ok s ∧ s ≠ "" := by
  have hok : ∃ s, formatChunks t.template_text (buildVariables t c) = .ok s := by
    rw [formatChunks_ok_iff]
    intro name hmem
    show ¬ (dictGet? name (buildVariables t c) = none)
    rw [dictGet?_buildVariables_eq_none_iff, not_not]
    fin_cases ht <;>
      simp_all [textVars, knownPlaceholders, loadResponseTemplates] <;>
      tauto
  obtain ⟨s, hs⟩ := hok
  refine ⟨s, hs, ?_⟩
  fin_cases ht <;> exact formatChunks_lit_ne_empty _ _ _ _ hs (by decide)

/-- Against the shipped catalog, `generate_response` on a known context
always succeeds, whatever the two external calls do; on enhancement
failure the returned text is the non-empty filled template. -/
theorem generateResponse_known (bot : BotState) (now : Nat)
    (ar : Except String TacticAnalysis) (er : Except String String)
    (cid msg : String) (od : Option Offer) (ctx : NegotiationContext)
    (hcat : bot.response_templates = loadResponseTemplates)
    (hc : dictGet? cid bot.negotiation_contexts = some ctx) :
    ∃ r t, t ∈ loadResponseTemplates ∧
      generateResponse bot now ar er cid msg od =
        (.ok r,
         insertContext bot cid (respondedContext ctx now od t.template_id r)) ∧
      (∀ e, er = .error e → r ≠ "") := by
  obtain ⟨t, pre, suf, hsel, hstrat, hsplit, hmax, hpre⟩ :=
    selectTemplate_spec loadResponseTemplates
      (analyzeIncomingMessage ar msg (applyOffer ctx now od))
      (applyOffer ctx now od) (catalogFilter_ne_nil _)
  have htmem : t ∈ loadResponseTemplates := by
    apply List.mem_of_mem_filter (p := fun t =>
      decide (t.strategy = (applyOffer ctx now od).strategy))
    rw [hsplit]
    exact List.mem_append_right _ (List.mem_cons_self _ _)
  obtain ⟨s, hfill, hne⟩ := catalog_fill_ok t htmem (applyOffer ctx now od)
  cases er with
  | ok e =>
    refine ⟨e.trim, t, htmem, ?_, by intro e₂ he₂; cases he₂⟩
    simp only [generateResponse, hc, hcat, hsel, generateAiResponse, hfill,
      respondedContext, insertContext]
  | error e =>
    refine ⟨s, t, htmem, ?_, fun e₂ _ => hne⟩
    simp only [generateResponse, hc, hcat, hsel, generateAiResponse, hfill,
      respondedContext, insertContext]

/-- Against the shipped catalog, a successful enhancement call makes
`generate_response` on a known context return exactly the enhancer\x27s
output stripped (`content.strip()`), whatever the analysis call did. -/
theorem generateResponse_enhance_ok_trim (bot : BotState) (now : Nat)
    (ar : Except String TacticAnalysis) (e : String) (cid msg : String)
    (od : Option Offer) (ctx : NegotiationContext)
    (hcat : bot.response_templates = loadResponseTemplates)
    (hc : dictGet? cid bot.negotiation_contexts = some ctx) :
    ∃ t, t ∈ loadResponseTemplates ∧
      generateResponse bot now ar (.ok e) cid msg od =
        (.ok e.trim,
         insertContext bot cid
           (respondedContext ctx now od t.template_id e.trim)) := by
  obtain ⟨t, pre, suf, hsel, hstrat, hsplit, hmax, hpre⟩ :=
    selectTemplate_spec loadResponseTemplates
      (analyzeIncomingMessage ar msg (applyOffer ctx now od))
      (applyOffer ctx now od) (catalogFilter_ne_nil _)
  have htmem : t ∈ loadResponseTemplates := by
    apply List.mem_of_mem_filter (p := fun t =>
      decide (t.strategy = (applyOffer ctx now od).strategy))
    rw [hsplit]
    exact List.mem_append_right _ (List.mem_cons_self _ _)
  obtain ⟨s, hfill, hne⟩ := catalog_fill_ok t htmem (applyOffer ctx now od)
  refine ⟨t, htmem, ?_⟩
  simp only [generateResponse, hc, hcat, hsel, generateAiResponse, hfill,
    respondedContext, insertContext]

/-- Counterexample for C7: the tactic-analysis call fails, yet
`generate_response` returns the empty string — when the enhancement call
succeeds with an empty response, the source returns `content.strip()`,
which is `""`.  So the claim\x27s unconditional "still returns non-empty
text" is false. -/
theorem generateResponse_analysis_error_empty_text_counterexample :
    (generateResponse demoBot 1700000060 (.error "analyzer down") (.ok "")
        demoCid "We need your decision." none).1 = .ok "" := by
  obtain ⟨t, -, heq⟩ :=
    generateResponse_enhance_ok_trim demoBot 1700000060
      (.error "analyzer down") "" demoCid "We need your decision." none
      demoContext rfl rfl
  rw [heq]
  show Except.ok "".trim = Except.ok ""
  rw [show "".trim = "" by with_unfolding_all rfl]

/-- C7 (amended).  When the external tactic-analysis call fails with any
error (including a non-parseable response), `generate_response` does not
propagate the error: `_analyze_incoming_message` returns exactly the
neutral fallback analysis and the call still succeeds; the returned text
is non-empty whenever the enhancement call also fails (the non-empty
filled template is returned verbatim), while a successful enhancement
call\x27s — external — output is returned stripped, and may be empty. -/
theorem generateResponse_absorbs_analysis_error (bot : BotState) (now : Nat)
    (errA : String) (er : Except String String) (cid msg : String)
    (od : Option Offer) (ctx : NegotiationContext)
    (hcat : bot.response_templates = loadResponseTemplates)
    (hc : dictGet? cid bot.negotiation_contexts = some ctx) :
    analyzeIncomingMessage (.error errA) msg (applyOffer ctx now od) =
      fallbackAnalysis ∧
    ∃ r bot₂,
      generateResponse bot now (.error errA) er cid msg od = (.ok r, bot₂) ∧
      ∀ e, er = .error e → r ≠ "" := by
  refine ⟨rfl, ?_⟩
  obtain ⟨r, t, -, heq, hne⟩ :=
    generateResponse_known bot now (.error errA) er cid msg od ctx hcat hc
  exact ⟨r, _, heq, hne⟩

/-- Witness for C7: the demo context, analysis and enhancement both
failing. -/
theorem generateResponse_absorbs_analysis_error_witness :
    demoBot.response_templates = loadResponseTemplates ∧
    dictGet? demoCid demoBot.negotiation_contexts = some demoContext ∧
    (analyzeIncomingMessage (.error "api down") "We need an answer."
        (applyOffer demoContext 1700000060 (some demoOffer)) =
      fallbackAnalysis ∧
    ∃ r bot₂,
      generateResponse demoBot 1700000060 (.error "api down")
          (.error "api down") demoCid "We need an answer."
          (some demoOffer) = (.ok r, bot₂) ∧
      ∀ e, (Except.error "api down" : Except String String) = .error e →
        r ≠ "") :=
  ⟨rfl, rfl,
   generateResponse_absorbs_analysis_error demoBot 1700000060 "api down"
     (.error "api down") demoCid "We need an answer." (some demoOffer)
     demoContext rfl rfl⟩

/-! ### History bookkeeping -/

theorem generateResponse_ok_shape (bot : BotState) (now : Nat)
    (ar : Except String TacticAnalysis) (er : Except String String)
    (cid msg : String) (od : Option Offer) (r : String) (bot₂ : BotState)
    (h : generateResponse bot now ar er cid msg od = (.ok r, bot₂)) :
    ∃ ctx tid, dictGet? cid bot.negotiation_contexts = some ctx ∧
      bot₂ = insertContext bot cid (respondedContext ctx now od tid r) := by
  unfold generateResponse at h
  cases hc : dictGet? cid bot.negotiation_contexts with
  | none => rw [hc] at h; cases h
  | some ctx =>
    rw [hc] at h
    simp only at h
    cases hs : selectTemplate bot.response_templates
        (analyzeIncomingMessage ar msg (applyOffer ctx now od))
        (applyOffer ctx now od) with
    | error e => rw [hs] at h; simp only at h; cases h
    | ok t =>
      rw [hs] at h
      simp only at h
      cases hg : generateAiResponse er t (applyOffer ctx now od)
          (analyzeIncomingMessage ar msg (applyOffer ctx now od)) with
      | error e => rw [hg] at h; cases h
      | ok resp =>
        rw [hg] at h
        injection h with h₁ h₂
        injection h₁ with h₁
        subst h₁
        refine ⟨ctx, t.template_id, rfl, ?_⟩
        rw [← h₂]
        rfl

theorem respondedContext_recTypes (ctx : NegotiationContext) (now : Nat)
    (od : Option Offer) (tid r : String) :
    (respondedContext ctx now od tid r).negotiation_history.map recType =
      ctx.negotiation_history.map recType ++
        ((if od.isSome then ["offer_received"] else []) ++ ["response_sent"]) := by
  cases od <;>
    simp [respondedContext, applyOffer, recType, List.map_append]

theorem runTurns_history (cid : String) (inputs : List TurnInput) :
    ∀ (bot : BotState) (ctx : NegotiationContext),
      dictGet? cid bot.negotiation_contexts = some ctx →
      allOk bot cid inputs = true →
      ∃ ctx₂,
        dictGet? cid (runTurns bot cid inputs).negotiation_contexts = some ctx₂ ∧
        ctx₂.negotiation_history.map recType =
          ctx.negotiation_history.map recType ++
            inputs.flatMap turnRecTypes := by
  induction inputs with
  | nil =>
    intro bot ctx hc _
    exact ⟨ctx, hc, by simp⟩
  | cons i rest ih =>
    intro bot ctx hc hok
    simp only [allOk, Bool.and_eq_true] at hok
    obtain ⟨hok₁, hok₂⟩ := hok
    cases he : (applyTurn bot cid i).1 with
    | error e => rw [he] at hok₁; simp [exceptOk] at hok₁
    | ok r =>
      have hpair : applyTurn bot cid i = (.ok r, (applyTurn bot cid i).2) := by
        rw [← he]
      obtain ⟨ctx₀, tid, hc₀, hbot₂⟩ :=
        generateResponse_ok_shape bot i.now i.analysisResult i.enhanceResult
          cid i.incoming_message i.offer_details r (applyTurn bot cid i).2 hpair
      rw [hc] at hc₀
      injection hc₀ with hc₀
      subst hc₀
      have hc₂ : dictGet? cid (applyTurn bot cid i).2.negotiation_contexts =
          some (respondedContext ctx i.now i.offer_details tid r) := by
        rw [hbot₂]
        exact dictGet?_insert_self _ _ _
      obtain ⟨ctx₂, hfind, hmap⟩ := ih (applyTurn bot cid i).2 _ hc₂ hok₂
      refine ⟨ctx₂, ?_, ?_⟩
      · simpa [runTurns] using hfind
      · rw [hmap, respondedContext_recTypes]
        simp [turnRecTypes, List.flatMap_cons, List.append_assoc]

theorem flatMap_turnRecTypes_length (inputs : List TurnInput) :
    (inputs.flatMap turnRecTypes).length =
      inputs.length + (inputs.filter fun i => i.offer_details.isSome).length := by
  induction inputs with
  | nil => rfl
  | cons i rest ih =>
    cases hi : i.offer_details <;>
      simp [turnRecTypes, List.flatMap_cons, ih, hi, List.filter] <;> omega

theorem histLen_insert (bot : BotState) (cid id : String)
    (c : NegotiationContext) :
    histLen (insertContext bot cid c) id =
      if cid = id then c.negotiation_history.length else histLen bot id := by
  unfold histLen insertContext
  by_cases hid : cid = id
  · subst hid; rw [dictGet?_insert_self]; simp
  · rw [dictGet?_insert_ne _ _ _ _ hid, if_neg hid]

theorem generateResponse_histLen_mono (bot : BotState) (now : Nat)
    (ar : Except String TacticAnalysis) (er : Except String String)
    (cid msg : String) (od : Option Offer) (id : String) :
    histLen bot id ≤ histLen (generateResponse bot now ar er cid msg od).2 id := by
  unfold generateResponse
  cases hc : dictGet? cid bot.negotiation_contexts with
  | none => simp
  | some ctx =>
    have hgrow : ∀ c₂ : NegotiationContext,
        ctx.negotiation_history.length ≤ c₂.negotiation_history.length →
        histLen bot id ≤ histLen (insertContext bot cid c₂) id := by
      intro c₂ hlen
      rw [histLen_insert]
      by_cases hid : cid = id
      · subst hid
        rw [if_pos rfl]
        unfold histLen
        rw [hc]
        exact hlen
      · rw [if_neg hid]
    have hoff : ctx.negotiation_history.length ≤
        (applyOffer ctx now od).negotiation_history.length := by
      cases od <;> simp [applyOffer]
    simp only
    cases selectTemplate bot.response_templates
        (analyzeIncomingMessage ar msg (applyOffer ctx now od))
        (applyOffer ctx now od) with
    | error e => simp only; exact hgrow _ hoff
    | ok t =>
      simp only
      cases generateAiResponse er t (applyOffer ctx now od)
          (analyzeIncomingMessage ar msg (applyOffer ctx now od)) with
      | error e => simp only; exact hgrow _ hoff
      | ok resp =>
        simp only
        apply hgrow
        simp only [List.length_append]
        omega

theorem updateStrategy_histLen (bot : BotState) (cid : String)
    (s : NegotiationStrategy) (id : String) :
    histLen (updateStrategy bot cid s) id = histLen bot id := by
  unfold updateStrategy
  cases hc : dictGet? cid bot.negotiation_contexts with
  | none => rfl
  | some c =>
    simp only
    rw [histLen_insert]
    by_cases hid : cid = id
    · subst hid
      rw [if_pos rfl]
      unfold histLen
      rw [hc]
    · rw [if_neg hid]

theorem addLeveragePoint_histLen (bot : BotState) (cid tag : String)
    (id : String) :
    histLen (addLeveragePoint bot cid tag) id = histLen bot id := by
  unfold addLeveragePoint
  cases hc : dictGet? cid bot.negotiation_contexts with
  | none => rfl
  | some c =>
    simp only
    rw [histLen_insert]
    by_cases hid : cid = id
    · subst hid
      rw [if_pos rfl]
      unfold histLen
      rw [hc]
    · rw [if_neg hid]

theorem allOk_of_catalog (cid : String) (inputs : List TurnInput) :
    ∀ (bot : BotState) (ctx : NegotiationContext),
      bot.response_templates = loadResponseTemplates →
      dictGet? cid bot.negotiation_contexts = some ctx →
      allOk bot cid inputs = true := by
  induction inputs with
  | nil => intro bot ctx _ _; rfl
  | cons i rest ih =>
    intro bot ctx hcat hc
    obtain ⟨r, t, -, heq, -⟩ :=
      generateResponse_known bot i.now i.analysisResult i.enhanceResult cid
        i.incoming_message i.offer_details ctx hcat hc
    have happ : applyTurn bot cid i =
        (.ok r, insertContext bot cid
          (respondedContext ctx i.now i.offer_details t.template_id r)) := heq
    simp only [allOk, happ, exceptOk, Bool.true_and]
    exact ih _ (respondedContext ctx i.now i.offer_details t.template_id r)
      hcat (dictGet?_insert_self _ _ _)

/-- C5.  After a sequence of successful `generate_response` calls against
one context — N calls, M of them supplying an offer — the context\x27s
`negotiation_history` has grown by exactly the call-ordered record tags
(one `offer_received` per supplied offer, each followed by that call\x27s
`response_sent`), hence by exactly N + M records; moreover the history
length at any identifier never decreases under `generate_response` (even
a failing one) and is preserved by `update_strategy` and
`add_leverage_point`. -/
theorem history_append_only :
    (∀ (bot : BotState) (cid : String) (inputs : List TurnInput)
        (ctx : NegotiationContext),
      dictGet? cid bot.negotiation_contexts = some ctx →
      allOk bot cid inputs = true →
      ∃ ctx₂,
        dictGet? cid (runTurns bot cid inputs).negotiation_contexts =
          some ctx₂ ∧
        ctx₂.negotiation_history.map recType =
          ctx.negotiation_history.map recType ++
            inputs.flatMap turnRecTypes ∧
        ctx₂.negotiation_history.length =
          ctx.negotiation_history.length + inputs.length +
            (inputs.filter fun i => i.offer_details.isSome).length) ∧
    (∀ (bot : BotState) (now : Nat) (ar : Except String TacticAnalysis)
        (er : Except String String) (cid msg : String) (od : Option Offer)
        (id : String),
      histLen bot id ≤
        histLen (generateResponse bot now ar er cid msg od).2 id) ∧
    (∀ (bot : BotState) (cid : String) (s : NegotiationStrategy) (id : String),
      histLen (updateStrategy bot cid s) id = histLen bot id) ∧
    (∀ (bot : BotState) (cid tag id : String),
      histLen (addLeveragePoint bot cid tag) id = histLen bot id) := by
  refine ⟨?_, generateResponse_histLen_mono, updateStrategy_histLen,
    addLeveragePoint_histLen⟩
  intro bot cid inputs ctx hc hok
  obtain ⟨ctx₂, hfind, hmap⟩ := runTurns_history cid inputs bot ctx hc hok
  refine ⟨ctx₂, hfind, hmap, ?_⟩
  have hlen := congrArg List.length hmap
  simp only [List.length_map, List.length_append] at hlen
  rw [hlen, flatMap_turnRecTypes_length]
  omega

/-- Witness for C5: the demo context runs the two demo turns (one with an
offer), growing the history by exactly three records in call order. -/
theorem history_append_only_witness :
    dictGet? demoCid demoBot.negotiation_contexts = some demoContext ∧
    allOk demoBot demoCid demoTurns = true ∧
    (∃ ctx₂,
      dictGet? demoCid (runTurns demoBot demoCid demoTurns).negotiation_contexts =
        some ctx₂ ∧
      ctx₂.negotiation_history.map recType =
        demoContext.negotiation_history.map recType ++
          demoTurns.flatMap turnRecTypes ∧
      ctx₂.negotiation_history.length =
        demoContext.negotiation_history.length + demoTurns.length +
          (demoTurns.filter fun i => i.offer_details.isSome).length) :=
  ⟨rfl, allOk_of_catalog demoCid demoTurns demoBot demoContext rfl rfl,
   history_append_only.1 demoBot demoCid demoTurns demoContext rfl
     (allOk_of_catalog demoCid demoTurns demoBot demoContext rfl rfl)⟩

end Neogiator
